import Mathlib

/-
Verification development for the CIS Benchmarks RAG application.

The repository source under scrutiny is `src/app.py`, a Streamlit front end
that drives a retrieval-augmented-generation pipeline.  The pipeline modules
imported by `app.py` (`rag_pipeline`, `openai_services`, `log_time`,
`helpers`) are not part of the repository snapshot, so their behaviour is
modelled from the specification where a claim depends on it; the front-end
logic of `app.py` is embedded directly.

Conventions: machine floats are modelled as exact rationals (`ℚ`), with real
numbers (`ℝ`) only where the specification's cosine-similarity formula needs
a square root; Python side effects on `st.session_state` are modelled as
explicit state passing over a `SessionState` record, and the observable
actions of one Streamlit rerun are collected in a trace of `Event`s.
-/

namespace CisRag

namespace rag_pipeline

/-- Retrieval configuration, mirroring `RetrievalConfig(top_k, similarity_threshold)`
constructed in `app.py`.  `top_k` is a Python int, `similarity_threshold` a float. -/
structure RetrievalConfig where
  top_k : ℤ
  similarity_threshold : ℚ
deriving DecidableEq, Repr

/-- Processor configuration wrapping a `RetrievalConfig`, mirroring
`ProcessorConfig(retrieval=...)` in `app.py`. -/
structure ProcessorConfig where
  retrieval : RetrievalConfig
deriving DecidableEq, Repr

/-- Error raised by the similarity scorer on vectors of unequal length. -/
inductive ScorerError where
  | dimensionMismatch
deriving DecidableEq, Repr

/-- Sum of squares of a vector's entries. -/
def sumSq (v : List ℚ) : ℚ := (v.map (fun x => x * x)).sum

/-- Dot product of two vectors. -/
def dotProd (a b : List ℚ) : ℚ := (List.zipWith (fun x y => x * y) a b).sum

/-- Euclidean norm of a vector: the square root of its sum of squares. -/
noncomputable def euclideanNorm (v : List ℚ) : ℝ := Real.sqrt ((sumSq v : ℚ) : ℝ)

/-- Modelled from the spec: `SimilarityScorer.score` of module `rag_pipeline`
(not in the repository snapshot), from §4.2: vectors of unequal length raise
`DimensionMismatchError`; if either vector has zero norm the score is 0.0;
otherwise the score is the dot product divided by the product of the Euclidean
norms.  The zero-norm test is phrased on `sumSq`, which for rational entries
is zero exactly when the Euclidean norm is zero. -/
noncomputable def score (a b : List ℚ) : Except ScorerError ℝ :=
  if a.length ≠ b.length then Except.error ScorerError.dimensionMismatch
  else if sumSq a = 0 ∨ sumSq b = 0 then Except.ok 0
  else Except.ok ((dotProd a b : ℝ) / (euclideanNorm a * euclideanNorm b))

/-- A corpus chunk: identifier and source text (its stored embedding lives in
the external vector store and enters the model through the scoring functions). -/
structure Chunk where
  chunkId : String
  text : String
deriving DecidableEq, Repr

/-- A chunk paired with its canonical cosine score (step 2 of §4.3) and its
final rank score (the reranker's signal when present, the cosine score
otherwise — step 3 of §4.3). -/
structure ScoredChunk where
  chunk : Chunk
  cosine : ℚ
  rank : ℚ
deriving DecidableEq, Repr

/-- Insert a scored chunk into a list sorted by descending rank, after any
element of equal rank (the stable placement §4.3 requires for ties). -/
def insertDesc (x : ScoredChunk) : List ScoredChunk → List ScoredChunk
  | [] => [x]
  | y :: ys => if y.rank < x.rank then x :: y :: ys else y :: insertDesc x ys

/-- Stable insertion sort by descending rank. -/
def sortDesc : List ScoredChunk → List ScoredChunk
  | [] => []
  | x :: xs => insertDesc x (sortDesc xs)

/-- Modelled from the spec: `RetrievalService.retrieve` of module
`rag_pipeline` (not in the repository snapshot), from §4.3.  The external
vector store's candidate set (step 1) is the `candidates` argument; the
canonical cosine re-scoring (step 2) and the optional reranker's signal
(step 3) are abstracted as per-chunk score functions `cosineScore` and
`rankScore` (with no reranker, `rankScore = cosineScore`).  Step 4 filters by
the cosine score against `similarity_threshold`; step 5 orders by descending
rank (stable) and truncates to `top_k`. -/
def retrieve (candidates : List Chunk) (cosineScore rankScore : Chunk → ℚ)
    (config : RetrievalConfig) : List ScoredChunk :=
  let scored := candidates.map (fun c => ScoredChunk.mk c (cosineScore c) (rankScore c))
  let kept := scored.filter (fun sc => decide (config.similarity_threshold ≤ sc.cosine))
  (sortDesc kept).take config.top_k.toNat

lemma mem_insertDesc (a x : ScoredChunk) (l : List ScoredChunk) :
    a ∈ insertDesc x l ↔ a = x ∨ a ∈ l := by
  induction l with
  | nil => simp [insertDesc]
  | cons y ys ih =>
    simp only [insertDesc]
    split
    · simp [List.mem_cons]
    · simp only [List.mem_cons, ih]
      tauto

lemma mem_sortDesc (a : ScoredChunk) (l : List ScoredChunk) :
    a ∈ sortDesc l ↔ a ∈ l := by
  induction l with
  | nil => simp [sortDesc]
  | cons x xs ih => simp [sortDesc, mem_insertDesc, ih]

lemma pairwise_insertDesc (x : ScoredChunk) (l : List ScoredChunk)
    (h : l.Pairwise (fun a b => b.rank ≤ a.rank)) :
    (insertDesc x l).Pairwise (fun a b => b.rank ≤ a.rank) := by
  induction l with
  | nil => simp [insertDesc]
  | cons y ys ih =>
    rw [List.pairwise_cons] at h
    obtain ⟨hy, hys⟩ := h
    simp only [insertDesc]
    split
    · rename_i hlt
      refine List.Pairwise.cons ?_ (List.Pairwise.cons hy hys)
      intro b hb
      rcases List.mem_cons.mp hb with hb | hb
      · exact hb ▸ hlt.le
      · exact (hy b hb).trans hlt.le
    · rename_i hnlt
      refine List.Pairwise.cons ?_ (ih hys)
      intro b hb
      rcases (mem_insertDesc b x ys).mp hb with hb | hb
      · exact hb ▸ (not_lt.mp hnlt)
      · exact hy b hb

lemma pairwise_sortDesc (l : List ScoredChunk) :
    (sortDesc l).Pairwise (fun a b => b.rank ≤ a.rank) := by
  induction l with
  | nil => simp [sortDesc]
  | cons x xs ih => exact pairwise_insertDesc x (sortDesc xs) ih

end rag_pipeline

end CisRag

namespace CisRag

open rag_pipeline

/-- C1: for every candidate set, every cosine/rank scoring and every
`RetrievalConfig` with positive `top_k` and threshold in `[0,1]`, `retrieve`
returns at most `top_k` chunks, every returned chunk has cosine score at
least `similarity_threshold`, and the returned chunks are in descending rank
order (highest score first). -/
theorem retrieve_contract (candidates : List Chunk) (cosineScore rankScore : Chunk → ℚ)
    (config : RetrievalConfig) (hk : 0 < config.top_k)
    (h0 : 0 ≤ config.similarity_threshold) (h1 : config.similarity_threshold ≤ 1) :
    ((retrieve candidates cosineScore rankScore config).length : ℤ) ≤ config.top_k ∧
    (∀ sc ∈ retrieve candidates cosineScore rankScore config,
      config.similarity_threshold ≤ sc.cosine) ∧
    (retrieve candidates cosineScore rankScore config).Pairwise
      (fun a b => b.rank ≤ a.rank) := by
  refine ⟨?_, ?_, ?_⟩
  · have hlen : (retrieve candidates cosineScore rankScore config).length
        ≤ config.top_k.toNat := by
      unfold retrieve
      exact List.length_take_le _ _
    calc ((retrieve candidates cosineScore rankScore config).length : ℤ)
        ≤ (config.top_k.toNat : ℤ) := by exact_mod_cast hlen
      _ = config.top_k := Int.toNat_of_nonneg hk.le
  · intro sc hsc
    unfold retrieve at hsc
    have hmem := (mem_sortDesc sc _).mp (List.mem_of_mem_take hsc)
    have := List.of_mem_filter hmem
    exact of_decide_eq_true this
  · unfold retrieve
    exact (pairwise_sortDesc _).sublist (List.take_sublist _ _)

/-- Witness for C1 at the spec's §8 end-to-end scenario: two chunks scoring
0.9 and 0.5, threshold 0.6, top_k 5. -/
theorem retrieve_contract_witness :
    ((retrieve [Chunk.mk ("c1") ("t1"), Chunk.mk ("c2") ("t2")]
        (fun c => if c.chunkId = "c1" then 9/10 else 1/2)
        (fun c => if c.chunkId = "c1" then 9/10 else 1/2)
        (RetrievalConfig.mk 5 (6/10))).length : ℤ) ≤ 5 ∧
    (∀ sc ∈ retrieve [Chunk.mk ("c1") ("t1"), Chunk.mk ("c2") ("t2")]
        (fun c => if c.chunkId = "c1" then 9/10 else 1/2)
        (fun c => if c.chunkId = "c1" then 9/10 else 1/2)
        (RetrievalConfig.mk 5 (6/10)), (6/10 : ℚ) ≤ sc.cosine) ∧
    (retrieve [Chunk.mk ("c1") ("t1"), Chunk.mk ("c2") ("t2")]
        (fun c => if c.chunkId = "c1" then 9/10 else 1/2)
        (fun c => if c.chunkId = "c1" then 9/10 else 1/2)
        (RetrievalConfig.mk 5 (6/10))).Pairwise (fun a b => b.rank ≤ a.rank) :=
  retrieve_contract _ _ _ _ (by norm_num) (by norm_num) (by norm_num)

lemma sumSq_nonneg (v : List ℚ) : 0 ≤ sumSq v := by
  unfold sumSq
  apply List.sum_nonneg
  intro x hx
  obtain ⟨y, _, rfl⟩ := List.mem_map.mp hx
  exact mul_self_nonneg y

lemma euclideanNorm_eq_zero (v : List ℚ) : euclideanNorm v = 0 ↔ sumSq v = 0 := by
  unfold euclideanNorm
  rw [Real.sqrt_eq_zero (by exact_mod_cast sumSq_nonneg v)]
  exact_mod_cast Iff.rfl

/-- C2: for equal-length vectors where at least one has zero Euclidean norm,
the similarity scorer returns exactly 0 (a defined value, never NaN). -/
theorem score_zero_norm (a b : List ℚ) (hlen : a.length = b.length)
    (hz : euclideanNorm a = 0 ∨ euclideanNorm b = 0) :
    score a b = Except.ok 0 := by
  have hz' : sumSq a = 0 ∨ sumSq b = 0 := by
    rcases hz with h | h
    · exact Or.inl ((euclideanNorm_eq_zero a).mp h)
    · exact Or.inr ((euclideanNorm_eq_zero b).mp h)
  unfold score
  rw [if_neg (by simp [hlen]), if_pos hz']

/-- Witness for C2: the zero vector `[0]` against `[1]`. -/
theorem score_zero_norm_witness : score [0] [1] = Except.ok 0 :=
  score_zero_norm [0] [1] rfl
    (Or.inl (by rw [euclideanNorm_eq_zero]; norm_num [sumSq]))

end CisRag

namespace CisRag

namespace app

open rag_pipeline

/-- One turn of the chat history: the dict `\x7b"user": ..., "bot": ...\x7d`
appended by `process_user_query`. -/
structure Exchange where
  user : String
  bot : String
deriving DecidableEq, Repr

/-- A `boto3.Session`, recorded by its constructor argument. -/
structure Boto3Session where
  region_name : String
deriving DecidableEq, Repr

/-- A client obtained from `session.client(service_name)`. -/
structure AwsClient where
  session : Boto3Session
  service_name : String
deriving DecidableEq, Repr

/-- The `OpenAIEmbeddingService(api_key, model)` wrapper, recorded by its constructor
arguments (the module `openai_services` is not in the repository snapshot). -/
structure OpenAIEmbeddingService where
  api_key : Option String
  model : String
deriving DecidableEq, Repr

/-- The `OpenAIGenerationService(api_key, model)` wrapper, recorded by its constructor
arguments. -/
structure OpenAIGenerationService where
  api_key : Option String
  model : String
deriving DecidableEq, Repr

/-- The `RetrievalService(vector_svc, s3_client, reranker_model)` client, recorded by its
constructor arguments. -/
structure RetrievalService where
  vector_client : AwsClient
  s3_client : AwsClient
  reranker_model : String
deriving DecidableEq, Repr

/-- Modelled from the spec: `PromptAugmenter` of module `rag_pipeline` (not in
the repository snapshot) is, per §4.4 and §6, a template loaded once from a
resource identified by name and immutable thereafter; it is recorded by that
name. -/
structure PromptAugmenter where
  template_path : String
deriving DecidableEq, Repr

/-- The `services` dict returned by `initialize_services`. -/
structure Services where
  aws_session : Boto3Session
  s3_client : AwsClient
  vector_client : AwsClient
  embedding_service : OpenAIEmbeddingService
  generation_service : OpenAIGenerationService
  retrieval_service : RetrievalService
  augmenter : PromptAugmenter
deriving DecidableEq, Repr

/-- The `QueryProcessor(...)` orchestrator as constructed in `process_user_query`, recorded by
its constructor arguments. -/
structure QueryProcessor where
  embedding_service : OpenAIEmbeddingService
  retrieval_service : RetrievalService
  prompt_augmenter : PromptAugmenter
  generation_service : OpenAIGenerationService
  config : ProcessorConfig
deriving DecidableEq, Repr

/-- The dict returned by `load_environment_config`.  `os.getenv` values are
`Option String` (absent when the variable is unset); `load_config` values come
from the configuration file. -/
structure EnvConfig where
  api_key : Option String
  bucket : String
  vector_bucket : String
  vector_region : String
  vector_index : String
  vector_dim : String
  demo_username : Option String
  demo_password : Option String
deriving DecidableEq, Repr

/-- Function `load_environment_config`: reads the process environment (`env`) and the
configuration file (`cfgFile`, modelling `helpers.load_config`, whose module
is not in the repository snapshot). -/
def load_environment_config (env : String → Option String)
    (cfgFile : String → String) : EnvConfig :=
  { api_key := env ("OPENAI_API_KEY"),
    bucket := cfgFile ("AWS_S3_BUCKET"),
    vector_bucket := cfgFile ("VECTOR_S3_BUCKET"),
    vector_region := cfgFile ("VECTOR_REGION"),
    vector_index := cfgFile ("VECTOR_INDEX"),
    vector_dim := cfgFile ("VECTOR_DIMENSION"),
    demo_username := env ("DEMO_USERNAME"),
    demo_password := env ("DEMO_PASSWORD") }

/-- The slice of `st.session_state` the application reads and writes.  An
`Option` field is `none` when the key is absent from session state.
`chat_history` is a plain list: `main` initialises the key to `[]` before any
read, so the initial state of a session carries `[]`. -/
structure SessionState where
  username : String
  password : Option String
  password_correct : Option Bool
  chat_history : List Exchange
  base_services : Option Services
  selected_question : Option String
deriving DecidableEq, Repr

/-- Observable actions of one Streamlit rerun, in program order: construction
of the per-call configuration and processor, `ProcessTimer` mark events, the
pipeline invocation, appends to the chat history, service initialisation, and
error banners. -/
inductive Event where
  | mark (label : String)
  | buildConfig (cfg : ProcessorConfig)
  | buildProcessor (qp : QueryProcessor)
  | processQuery (question : String)
  | appendHistory (e : Exchange)
  | initServices
  | errorShown (msg : String)
deriving DecidableEq, Repr

def isMark : Event → Bool
  | .mark _ => true
  | _ => false

def isBuildConfig : Event → Bool
  | .buildConfig _ => true
  | _ => false

def isBuildProcessor : Event → Bool
  | .buildProcessor _ => true
  | _ => false

def isProcessQuery : Event → Bool
  | .processQuery _ => true
  | _ => false

def isAppendHistory : Event → Bool
  | .appendHistory _ => true
  | _ => false

def isInitServices : Event → Bool
  | .initServices => true
  | _ => false

def isErrorShown : Event → Bool
  | .errorShown _ => true
  | _ => false

/-- The `password_entered` callback inside `check_authentication`: compares
the SHA-256 hex digest of the entered `username + password` concatenation with
that of the expected one; on a match it sets `password_correct` and deletes
the `password` key, otherwise it records the failure.  The hash is the
uninterpreted function `sha256hex`. -/
def password_entered (sha256hex : String → String)
    (username password : String) (st : SessionState) : SessionState :=
  let entered_combo := st.username ++ st.password.getD ("")
  let expected_combo := username ++ password
  if sha256hex entered_combo = sha256hex expected_combo then
    { st with password_correct := some true, password := none }
  else
    { st with password_correct := some false }

/-- The body of `check_authentication` as run by `main`: with no
`password_correct` key it renders the login inputs and stops the rerun; with a
recorded failure it shows the error banner and stops; otherwise the rerun
continues.  Returns whether the rerun continues, plus the emitted events. -/
def check_authentication (st : SessionState) : Bool × List Event :=
  match st.password_correct with
  | none => (false, [])
  | some false => (false, [Event.errorShown ("❌ Incorrect password")])
  | some true => (true, [])

/-- Function `initialize_services`: builds the AWS session and clients, the OpenAI
embedding/generation services, the retrieval service and the prompt augmenter
loaded from `rag_prompt.md`. -/
def initialize_services (cfgFile : String → String) (config : EnvConfig) : Services :=
  let session : Boto3Session := ⟨config.vector_region⟩
  let s3_client : AwsClient := ⟨session, "s3"⟩
  let vector_svc : AwsClient := ⟨session, "s3vectors"⟩
  { aws_session := session,
    s3_client := s3_client,
    vector_client := vector_svc,
    embedding_service := ⟨config.api_key, cfgFile ("embedding_model")⟩,
    generation_service := ⟨config.api_key, cfgFile ("inference_model")⟩,
    retrieval_service := ⟨vector_svc, s3_client, cfgFile ("reranker_model")⟩,
    augmenter := ⟨"rag_prompt.md"⟩ }

/-- A Streamlit slider with bounds `lo`/`hi` and default `dflt`: it returns
the default when untouched and otherwise the user's selection, which the
widget constrains to the range. -/
def slider {α : Type} [LinearOrder α] (lo hi dflt : α) (user : Option α) : α :=
  match user with
  | none => dflt
  | some v => max lo (min hi v)

/-- Function `setup_sidebar`: the two retrieval-settings sliders, `Top K Chunks` over
1–10 defaulting to 3 and `Similarity Threshold` over 0.0–1.0 defaulting to
0.32.  (The query-suggestion buttons set `selected_question` on an earlier
rerun; that value enters `main_step` through the session state.) -/
def setup_sidebar (uTopK : Option ℤ) (uThr : Option ℚ) : ℤ × ℚ :=
  (slider 1 10 3 uTopK, slider 0 1 (32/100) uThr)

/-- Python truthiness of an optional string: `None` and `""` are falsy. -/
def truthyOptStr : Option String → Bool
  | none => false
  | some s => !(s.length == 0)

/-- Function `process_user_query(user_input, top_k, similarity_threshold)`: builds a
fresh `ProcessorConfig` from this call's slider values and a fresh
`QueryProcessor` over the cached services, brackets the pipeline call with the
two `ProcessTimer` marks, and afterwards appends the one `\x7buser, bot\x7d`
exchange to the chat history.  `pq` is `QueryProcessor.process_query`,
modelled from the spec (module `rag_pipeline` is not in the repository
snapshot) as a pure function of the question per §5: the pipeline writes no
shared mutable state.  When `base_services` is absent the Python code would
raise; that path is unreachable from `main` and modelled as a no-op. -/
def process_user_query (pq : String → String) (user_input : String)
    (top_k : ℤ) (similarity_threshold : ℚ) (st : SessionState) :
    SessionState × List Event :=
  match st.base_services with
  | none => (st, [])
  | some services =>
    let current_config : ProcessorConfig := ⟨⟨top_k, similarity_threshold⟩⟩
    let processor : QueryProcessor :=
      ⟨services.embedding_service, services.retrieval_service,
        services.augmenter, services.generation_service, current_config⟩
    let response := pq user_input
    ({ st with chat_history := st.chat_history ++ [⟨user_input, response⟩] },
      [Event.buildConfig current_config, Event.buildProcessor processor,
        Event.mark ("RAG Processing Query"), Event.processQuery user_input,
        Event.mark ("RAG Processing Query"),
        Event.appendHistory ⟨user_input, response⟩])

/-- Modelled from the spec: the hypothetical variant of `process_user_query`
with the two `pt.mark` calls removed, used to state that the timing hook is
purely observational (§6: "purely observational, must never alter pipeline
outcome").  Identical to `process_user_query` except that no mark events are
emitted. -/
def process_user_query_unmarked (pq : String → String) (user_input : String)
    (top_k : ℤ) (similarity_threshold : ℚ) (st : SessionState) :
    SessionState × List Event :=
  match st.base_services with
  | none => (st, [])
  | some services =>
    let current_config : ProcessorConfig := ⟨⟨top_k, similarity_threshold⟩⟩
    let processor : QueryProcessor :=
      ⟨services.embedding_service, services.retrieval_service,
        services.augmenter, services.generation_service, current_config⟩
    let response := pq user_input
    ({ st with chat_history := st.chat_history ++ [⟨user_input, response⟩] },
      [Event.buildConfig current_config, Event.buildProcessor processor,
        Event.processQuery user_input,
        Event.appendHistory ⟨user_input, response⟩])

/-- The `if "base_services" not in st.session_state` step of `main`:
`initialize_services` runs only when the key is absent. -/
def services_phase (cfgFile : String → String) (config : EnvConfig)
    (st : SessionState) : SessionState × List Event :=
  match st.base_services with
  | some _ => (st, [])
  | none =>
    ({ st with base_services := some (initialize_services cfgFile config) },
      [Event.initServices])

/-- The `if "selected_question" in st.session_state` step of `main`: the
selected question is deleted from session state, then processed only when the
API key is truthy. -/
def selected_question_phase (pq : String → String) (config : EnvConfig)
    (top_k : ℤ) (thr : ℚ) (st : SessionState) : SessionState × List Event :=
  match st.selected_question with
  | none => (st, [])
  | some q =>
    let st1 := { st with selected_question := none }
    if truthyOptStr config.api_key then process_user_query pq q top_k thr st1
    else (st1, [])

/-- The `st.chat_input` step of `main`: the entered question is processed only
when both it and the API key are truthy. -/
def chat_input_phase (pq : String → String) (config : EnvConfig)
    (top_k : ℤ) (thr : ℚ) (chatInput : Option String) (st : SessionState) :
    SessionState × List Event :=
  match chatInput with
  | none => (st, [])
  | some user_input =>
    if truthyOptStr (some user_input) && truthyOptStr config.api_key then
      process_user_query pq user_input top_k thr st
    else (st, [])

/-- One Streamlit rerun of `main`, after page setup: load the environment
configuration, gate on authentication, ensure services are initialised, read
the sidebar sliders, handle a pending selected question, then handle the chat
input.  `uTopK`/`uThr` are the user's slider selections for this rerun and
`chatInput` the chat-box submission, if any. -/
def main_step (env : String → Option String) (cfgFile : String → String)
    (pq : String → String) (uTopK : Option ℤ) (uThr : Option ℚ)
    (chatInput : Option String) (st : SessionState) :
    SessionState × List Event :=
  let config := load_environment_config env cfgFile
  let auth := check_authentication st
  if auth.1 then
    let sp := services_phase cfgFile config st
    let kt := setup_sidebar uTopK uThr
    let qp := selected_question_phase pq config kt.1 kt.2 sp.1
    let cp := chat_input_phase pq config kt.1 kt.2 chatInput qp.1
    (cp.1, sp.2 ++ qp.2 ++ cp.2)
  else (st, auth.2)

/-- The per-rerun inputs of one user turn. -/
structure TurnInput where
  uTopK : Option ℤ
  uThr : Option ℚ
  chatInput : Option String
deriving DecidableEq, Repr

/-- A session: a sequence of reruns of `main`, threading the session state and
concatenating the event traces. -/
def run_turns (env : String → Option String) (cfgFile : String → String)
    (pq : String → String) : List TurnInput → SessionState → SessionState × List Event
  | [], st => (st, [])
  | t :: ts, st =>
    let r := main_step env cfgFile pq t.uTopK t.uThr t.chatInput st
    let rest := run_turns env cfgFile pq ts r.1
    (rest.1, r.2 ++ rest.2)

end app

end CisRag

namespace CisRag

open rag_pipeline app

/-- A concrete services record, as produced by `initialize_services`. -/
def sampleServices : Services :=
  initialize_services (fun _ => "model")
    { api_key := some ("key"), bucket := "b", vector_bucket := "vb",
      vector_region := "r", vector_index := "vi", vector_dim := "1536",
      demo_username := some ("u"), demo_password := some ("p") }

/-- A concrete authenticated session state with initialised services. -/
def sampleState : SessionState :=
  { username := "u", password := none, password_correct := some true,
    chat_history := [], base_services := some sampleServices,
    selected_question := none }

lemma puq_init_count (pq : String → String) (q : String) (k : ℤ) (thr : ℚ)
    (st : SessionState) :
    (process_user_query pq q k thr st).2.countP isInitServices = 0 := by
  cases hb : st.base_services <;>
    simp [process_user_query, hb, isInitServices, List.countP_cons]

lemma puq_err_count (pq : String → String) (q : String) (k : ℤ) (thr : ℚ)
    (st : SessionState) :
    (process_user_query pq q k thr st).2.countP isErrorShown = 0 := by
  cases hb : st.base_services <;>
    simp [process_user_query, hb, isErrorShown, List.countP_cons]

lemma puq_buildConfig (pq : String → String) (q : String) (k : ℤ) (thr : ℚ)
    (st : SessionState) (c : ProcessorConfig)
    (h : Event.buildConfig c ∈ (process_user_query pq q k thr st).2) :
    c = ⟨⟨k, thr⟩⟩ := by
  cases hb : st.base_services with
  | none => simp [process_user_query, hb] at h
  | some s =>
    simp [process_user_query, hb] at h
    exact h

lemma puq_frame (pq : String → String) (q : String) (k : ℤ) (thr : ℚ)
    (st : SessionState) :
    (process_user_query pq q k thr st).1.username = st.username ∧
    (process_user_query pq q k thr st).1.password = st.password ∧
    (process_user_query pq q k thr st).1.password_correct = st.password_correct ∧
    (process_user_query pq q k thr st).1.base_services = st.base_services ∧
    (process_user_query pq q k thr st).1.selected_question = st.selected_question := by
  cases hb : st.base_services <;> simp [process_user_query, hb]

/-- C3: one call of `process_user_query` (with services initialised) invokes
the pipeline's `process_query` exactly once, appends exactly one user/bot
exchange — holding the pipeline's returned response — to the chat history, and
in the event trace the single history append occurs strictly after the single
pipeline invocation (the append is the caller's, not the pipeline's). -/
theorem process_user_query_single_invocation (pq : String → String) (q : String)
    (k : ℤ) (thr : ℚ) (st : SessionState) (s : Services)
    (hs : st.base_services = some s) :
    (process_user_query pq q k thr st).2.countP isProcessQuery = 1 ∧
    (process_user_query pq q k thr st).1.chat_history =
      st.chat_history ++ [Exchange.mk q (pq q)] ∧
    (process_user_query pq q k thr st).2.countP isAppendHistory = 1 ∧
    ∃ i j : ℕ, i < j ∧
      (process_user_query pq q k thr st).2[i]? = some (Event.processQuery q) ∧
      (process_user_query pq q k thr st).2[j]? =
        some (Event.appendHistory (Exchange.mk q (pq q))) := by
  refine ⟨?_, ?_, ?_, 3, 5, by norm_num, ?_, ?_⟩ <;>
    simp [process_user_query, hs, isProcessQuery, isAppendHistory,
      List.countP_cons]

/-- Witness for C3 at a concrete state and question. -/
theorem process_user_query_single_invocation_witness :
    (process_user_query (fun _ => "ans") ("q1") 3 (32/100) sampleState).2.countP
      isProcessQuery = 1 ∧
    (process_user_query (fun _ => "ans") ("q1") 3 (32/100) sampleState).1.chat_history =
      sampleState.chat_history ++ [Exchange.mk ("q1") ("ans")] ∧
    (process_user_query (fun _ => "ans") ("q1") 3 (32/100) sampleState).2.countP
      isAppendHistory = 1 ∧
    ∃ i j : ℕ, i < j ∧
      (process_user_query (fun _ => "ans") ("q1") 3 (32/100) sampleState).2[i]? =
        some (Event.processQuery ("q1")) ∧
      (process_user_query (fun _ => "ans") ("q1") 3 (32/100) sampleState).2[j]? =
        some (Event.appendHistory (Exchange.mk ("q1") ("ans"))) :=
  process_user_query_single_invocation (fun _ => "ans") ("q1") 3 (32/100)
    sampleState sampleServices rfl

/-- C6: the two `ProcessTimer` mark calls bracketing the pipeline call are
purely observational — the resulting session state (hence the response and the
appended chat entry) is identical to that of the mark-free variant, and the
two traces agree once mark events are erased. -/
theorem timer_marks_noninterference (pq : String → String) (q : String)
    (k : ℤ) (thr : ℚ) (st : SessionState) :
    (process_user_query pq q k thr st).1 =
      (process_user_query_unmarked pq q k thr st).1 ∧
    (process_user_query pq q k thr st).2.filter (fun e => !(isMark e)) =
      (process_user_query_unmarked pq q k thr st).2 := by
  cases hb : st.base_services <;>
    simp [process_user_query, process_user_query_unmarked, hb, isMark]

/-- C7: each call of `process_user_query` constructs its configuration and
orchestrator afresh from that call's slider values and the cached services:
the trace holds exactly one built configuration, equal to the one determined
by this call's arguments, and exactly one built processor over the cached
services; all session-state fields other than the chat history are unchanged;
and the trace is identical for any two states sharing the same cached
services, regardless of accumulated history. -/
theorem fresh_config_per_call (pq : String → String) (q : String) (k : ℤ)
    (thr : ℚ) (st st2 : SessionState) (s : Services)
    (hs : st.base_services = some s) (hs2 : st2.base_services = some s) :
    (process_user_query pq q k thr st).2.countP isBuildConfig = 1 ∧
    Event.buildConfig ⟨⟨k, thr⟩⟩ ∈ (process_user_query pq q k thr st).2 ∧
    (process_user_query pq q k thr st).2.countP isBuildProcessor = 1 ∧
    Event.buildProcessor ⟨s.embedding_service, s.retrieval_service, s.augmenter,
      s.generation_service, ⟨⟨k, thr⟩⟩⟩ ∈ (process_user_query pq q k thr st).2 ∧
    (process_user_query pq q k thr st).1.username = st.username ∧
    (process_user_query pq q k thr st).1.password = st.password ∧
    (process_user_query pq q k thr st).1.password_correct = st.password_correct ∧
    (process_user_query pq q k thr st).1.base_services = st.base_services ∧
    (process_user_query pq q k thr st).1.selected_question = st.selected_question ∧
    (process_user_query pq q k thr st2).2 = (process_user_query pq q k thr st).2 := by
  refine ⟨?_, ?_, ?_, ?_, (puq_frame pq q k thr st).1,
    (puq_frame pq q k thr st).2.1, (puq_frame pq q k thr st).2.2.1,
    (puq_frame pq q k thr st).2.2.2.1, (puq_frame pq q k thr st).2.2.2.2, ?_⟩ <;>
    simp [process_user_query, hs, hs2, isBuildConfig, isBuildProcessor,
      List.countP_cons]

/-- Witness for C7: same services, different accumulated chat history. -/
theorem fresh_config_per_call_witness :
    (process_user_query (fun _ => "a") ("q") 4 (1/2) sampleState).2.countP
      isBuildConfig = 1 ∧
    Event.buildConfig ⟨⟨4, 1/2⟩⟩ ∈
      (process_user_query (fun _ => "a") ("q") 4 (1/2) sampleState).2 ∧
    (process_user_query (fun _ => "a") ("q") 4 (1/2) sampleState).2.countP
      isBuildProcessor = 1 ∧
    Event.buildProcessor ⟨sampleServices.embedding_service,
      sampleServices.retrieval_service, sampleServices.augmenter,
      sampleServices.generation_service, ⟨⟨4, 1/2⟩⟩⟩ ∈
      (process_user_query (fun _ => "a") ("q") 4 (1/2) sampleState).2 ∧
    (process_user_query (fun _ => "a") ("q") 4 (1/2) sampleState).1.username =
      sampleState.username ∧
    (process_user_query (fun _ => "a") ("q") 4 (1/2) sampleState).1.password =
      sampleState.password ∧
    (process_user_query (fun _ => "a") ("q") 4 (1/2) sampleState).1.password_correct =
      sampleState.password_correct ∧
    (process_user_query (fun _ => "a") ("q") 4 (1/2) sampleState).1.base_services =
      sampleState.base_services ∧
    (process_user_query (fun _ => "a") ("q") 4 (1/2) sampleState).1.selected_question =
      sampleState.selected_question ∧
    (process_user_query (fun _ => "a") ("q") 4 (1/2)
        { sampleState with chat_history := [Exchange.mk ("old") ("turn")] }).2 =
      (process_user_query (fun _ => "a") ("q") 4 (1/2) sampleState).2 :=
  fresh_config_per_call (fun _ => "a") ("q") 4 (1/2) sampleState
    { sampleState with chat_history := [Exchange.mk ("old") ("turn")] }
    sampleServices rfl rfl

/-- C8: with the digest function injective, the `password_entered` callback
accepts exactly when the concatenation of the entered username and password
equals the concatenation of the expected ones — so any re-split of the same
combined string is accepted. -/
theorem auth_accepts_iff_concat_eq (sha256hex : String → String)
    (hinj : Function.Injective sha256hex) (xu xp : String) (st : SessionState)
    (ep : String) (hp : st.password = some ep) :
    (password_entered sha256hex xu xp st).password_correct = some true ↔
      st.username ++ ep = xu ++ xp := by
  simp only [password_entered, hp, Option.getD_some]
  split
  · rename_i h
    exact ⟨fun _ => hinj h, fun _ => rfl⟩
  · rename_i h
    constructor
    · intro hc
      exact absurd hc (by simp)
    · intro he
      exact absurd (congrArg sha256hex he) h

/-- Witness for C8: the re-split pair ("ab", "c") is accepted against the
expected pair ("a", "bc"). -/
theorem auth_accepts_iff_concat_eq_witness :
    (password_entered id ("a") ("bc")
      { username := "ab", password := some ("c"), password_correct := none,
        chat_history := [], base_services := none,
        selected_question := none }).password_correct = some true :=
  (auth_accepts_iff_concat_eq id (fun _ _ h => h) ("a") ("bc")
    { username := "ab", password := some ("c"), password_correct := none,
      chat_history := [], base_services := none, selected_question := none }
    ("c") rfl).mpr (by decide)

/-- C10: when the digest comparison succeeds, `password_entered` records the
success and deletes the stored password; when it fails, it records the failure
and the entered password stays in session state. -/
theorem password_cleared_on_success (sha256hex : String → String)
    (xu xp : String) (st : SessionState) (ep : String)
    (hp : st.password = some ep) :
    (sha256hex (st.username ++ ep) = sha256hex (xu ++ xp) →
      (password_entered sha256hex xu xp st).password_correct = some true ∧
      (password_entered sha256hex xu xp st).password = none) ∧
    (sha256hex (st.username ++ ep) ≠ sha256hex (xu ++ xp) →
      (password_entered sha256hex xu xp st).password_correct = some false ∧
      (password_entered sha256hex xu xp st).password = some ep) := by
  constructor
  · intro h
    simp [password_entered, hp, h]
  · intro h
    simp [password_entered, hp, h]

lemma sp_of_some (cfgFile : String → String) (config : EnvConfig)
    (st : SessionState) (s : Services) (hb : st.base_services = some s) :
    services_phase cfgFile config st = (st, []) := by
  simp [services_phase, hb]

lemma sp_of_none (cfgFile : String → String) (config : EnvConfig)
    (st : SessionState) (hb : st.base_services = none) :
    services_phase cfgFile config st =
      ({ st with base_services := some (initialize_services cfgFile config) },
        [Event.initServices]) := by
  simp [services_phase, hb]

lemma sp_chat (cfgFile : String → String) (config : EnvConfig) (st : SessionState) :
    (services_phase cfgFile config st).1.chat_history = st.chat_history := by
  cases hb : st.base_services <;> simp [services_phase, hb]

lemma sp_sq (cfgFile : String → String) (config : EnvConfig) (st : SessionState) :
    (services_phase cfgFile config st).1.selected_question = st.selected_question := by
  cases hb : st.base_services <;> simp [services_phase, hb]

lemma sp_pc (cfgFile : String → String) (config : EnvConfig) (st : SessionState) :
    (services_phase cfgFile config st).1.password_correct = st.password_correct := by
  cases hb : st.base_services <;> simp [services_phase, hb]

lemma sp_pq_count (cfgFile : String → String) (config : EnvConfig) (st : SessionState) :
    (services_phase cfgFile config st).2.countP isProcessQuery = 0 := by
  cases hb : st.base_services <;>
    simp [services_phase, hb, isProcessQuery, List.countP_cons]

lemma sp_err_count (cfgFile : String → String) (config : EnvConfig) (st : SessionState) :
    (services_phase cfgFile config st).2.countP isErrorShown = 0 := by
  cases hb : st.base_services <;>
    simp [services_phase, hb, isErrorShown, List.countP_cons]

lemma sp_no_buildConfig (cfgFile : String → String) (config : EnvConfig)
    (st : SessionState) (c : ProcessorConfig)
    (h : Event.buildConfig c ∈ (services_phase cfgFile config st).2) : False := by
  cases hb : st.base_services <;> simp [services_phase, hb] at h

lemma selq_base (pq : String → String) (config : EnvConfig) (k : ℤ) (thr : ℚ)
    (st : SessionState) :
    (selected_question_phase pq config k thr st).1.base_services = st.base_services := by
  cases hq : st.selected_question with
  | none => simp [selected_question_phase, hq]
  | some q =>
    simp only [selected_question_phase, hq]
    split
    · exact (puq_frame pq q k thr { st with selected_question := none }).2.2.2.1
    · rfl

lemma selq_pc (pq : String → String) (config : EnvConfig) (k : ℤ) (thr : ℚ)
    (st : SessionState) :
    (selected_question_phase pq config k thr st).1.password_correct =
      st.password_correct := by
  cases hq : st.selected_question with
  | none => simp [selected_question_phase, hq]
  | some q =>
    simp only [selected_question_phase, hq]
    split
    · exact (puq_frame pq q k thr { st with selected_question := none }).2.2.1
    · rfl

lemma selq_init_count (pq : String → String) (config : EnvConfig) (k : ℤ) (thr : ℚ)
    (st : SessionState) :
    (selected_question_phase pq config k thr st).2.countP isInitServices = 0 := by
  cases hq : st.selected_question with
  | none => simp [selected_question_phase, hq]
  | some q =>
    simp only [selected_question_phase, hq]
    split
    · exact puq_init_count pq q k thr { st with selected_question := none }
    · rfl

lemma selq_err_count (pq : String → String) (config : EnvConfig) (k : ℤ) (thr : ℚ)
    (st : SessionState) :
    (selected_question_phase pq config k thr st).2.countP isErrorShown = 0 := by
  cases hq : st.selected_question with
  | none => simp [selected_question_phase, hq]
  | some q =>
    simp only [selected_question_phase, hq]
    split
    · exact puq_err_count pq q k thr { st with selected_question := none }
    · rfl

lemma selq_buildConfig (pq : String → String) (config : EnvConfig) (k : ℤ) (thr : ℚ)
    (st : SessionState) (c : ProcessorConfig)
    (h : Event.buildConfig c ∈ (selected_question_phase pq config k thr st).2) :
    c = ⟨⟨k, thr⟩⟩ := by
  cases hq : st.selected_question with
  | none => simp [selected_question_phase, hq] at h
  | some q =>
    simp only [selected_question_phase, hq] at h
    split at h
    · exact puq_buildConfig pq q k thr _ c h
    · simp at h

lemma selq_no_key_sq (pq : String → String) (config : EnvConfig) (k : ℤ) (thr : ℚ)
    (st : SessionState) (hk : truthyOptStr config.api_key = false) :
    (selected_question_phase pq config k thr st).1.selected_question = none := by
  cases hq : st.selected_question with
  | none => simp [selected_question_phase, hq]
  | some q => simp [selected_question_phase, hq, hk]

lemma selq_no_key_chat (pq : String → String) (config : EnvConfig) (k : ℤ) (thr : ℚ)
    (st : SessionState) (hk : truthyOptStr config.api_key = false) :
    (selected_question_phase pq config k thr st).1.chat_history = st.chat_history := by
  cases hq : st.selected_question with
  | none => simp [selected_question_phase, hq]
  | some q => simp [selected_question_phase, hq, hk]

lemma selq_no_key_trace (pq : String → String) (config : EnvConfig) (k : ℤ) (thr : ℚ)
    (st : SessionState) (hk : truthyOptStr config.api_key = false) :
    (selected_question_phase pq config k thr st).2 = [] := by
  cases hq : st.selected_question with
  | none => simp [selected_question_phase, hq]
  | some q => simp [selected_question_phase, hq, hk]

lemma chat_base (pq : String → String) (config : EnvConfig) (k : ℤ) (thr : ℚ)
    (ci : Option String) (st : SessionState) :
    (chat_input_phase pq config k thr ci st).1.base_services = st.base_services := by
  cases ci with
  | none => rfl
  | some q =>
    simp only [chat_input_phase]
    split
    · exact (puq_frame pq q k thr st).2.2.2.1
    · rfl

lemma chat_pc (pq : String → String) (config : EnvConfig) (k : ℤ) (thr : ℚ)
    (ci : Option String) (st : SessionState) :
    (chat_input_phase pq config k thr ci st).1.password_correct =
      st.password_correct := by
  cases ci with
  | none => rfl
  | some q =>
    simp only [chat_input_phase]
    split
    · exact (puq_frame pq q k thr st).2.2.1
    · rfl

lemma chat_sq (pq : String → String) (config : EnvConfig) (k : ℤ) (thr : ℚ)
    (ci : Option String) (st : SessionState) :
    (chat_input_phase pq config k thr ci st).1.selected_question =
      st.selected_question := by
  cases ci with
  | none => rfl
  | some q =>
    simp only [chat_input_phase]
    split
    · exact (puq_frame pq q k thr st).2.2.2.2
    · rfl

lemma chat_init_count (pq : String → String) (config : EnvConfig) (k : ℤ) (thr : ℚ)
    (ci : Option String) (st : SessionState) :
    (chat_input_phase pq config k thr ci st).2.countP isInitServices = 0 := by
  cases ci with
  | none => rfl
  | some q =>
    simp only [chat_input_phase]
    split
    · exact puq_init_count pq q k thr st
    · rfl

lemma chat_err_count (pq : String → String) (config : EnvConfig) (k : ℤ) (thr : ℚ)
    (ci : Option String) (st : SessionState) :
    (chat_input_phase pq config k thr ci st).2.countP isErrorShown = 0 := by
  cases ci with
  | none => rfl
  | some q =>
    simp only [chat_input_phase]
    split
    · exact puq_err_count pq q k thr st
    · rfl

lemma chat_buildConfig (pq : String → String) (config : EnvConfig) (k : ℤ) (thr : ℚ)
    (ci : Option String) (st : SessionState) (c : ProcessorConfig)
    (h : Event.buildConfig c ∈ (chat_input_phase pq config k thr ci st).2) :
    c = ⟨⟨k, thr⟩⟩ := by
  cases ci with
  | none => simp [chat_input_phase] at h
  | some q =>
    simp only [chat_input_phase] at h
    split at h
    · exact puq_buildConfig pq q k thr st c h
    · simp at h

lemma chat_no_key (pq : String → String) (config : EnvConfig) (k : ℤ) (thr : ℚ)
    (ci : Option String) (st : SessionState)
    (hk : truthyOptStr config.api_key = false) :
    chat_input_phase pq config k thr ci st = (st, []) := by
  cases ci with
  | none => rfl
  | some q => simp [chat_input_phase, hk]

lemma main_step_trace_of_auth (env : String → Option String)
    (cfgFile : String → String) (pq : String → String) (uk : Option ℤ)
    (ut : Option ℚ) (ci : Option String) (st : SessionState)
    (h : st.password_correct = some true) :
    (main_step env cfgFile pq uk ut ci st).2 =
      (services_phase cfgFile (load_environment_config env cfgFile) st).2 ++
      (selected_question_phase pq (load_environment_config env cfgFile)
        (setup_sidebar uk ut).1 (setup_sidebar uk ut).2
        (services_phase cfgFile (load_environment_config env cfgFile) st).1).2 ++
      (chat_input_phase pq (load_environment_config env cfgFile)
        (setup_sidebar uk ut).1 (setup_sidebar uk ut).2 ci
        (selected_question_phase pq (load_environment_config env cfgFile)
          (setup_sidebar uk ut).1 (setup_sidebar uk ut).2
          (services_phase cfgFile (load_environment_config env cfgFile) st).1).1).2 := by
  simp [main_step, check_authentication, h]

lemma main_step_state_of_auth (env : String → Option String)
    (cfgFile : String → String) (pq : String → String) (uk : Option ℤ)
    (ut : Option ℚ) (ci : Option String) (st : SessionState)
    (h : st.password_correct = some true) :
    (main_step env cfgFile pq uk ut ci st).1 =
      (chat_input_phase pq (load_environment_config env cfgFile)
        (setup_sidebar uk ut).1 (setup_sidebar uk ut).2 ci
        (selected_question_phase pq (load_environment_config env cfgFile)
          (setup_sidebar uk ut).1 (setup_sidebar uk ut).2
          (services_phase cfgFile (load_environment_config env cfgFile) st).1).1).1 := by
  simp [main_step, check_authentication, h]

lemma main_step_some (env : String → Option String) (cfgFile : String → String)
    (pq : String → String) (uk : Option ℤ) (ut : Option ℚ) (ci : Option String)
    (st : SessionState) (s : Services) (h : st.password_correct = some true)
    (hb : st.base_services = some s) :
    (main_step env cfgFile pq uk ut ci st).1.base_services = some s ∧
    (main_step env cfgFile pq uk ut ci st).1.password_correct = some true ∧
    (main_step env cfgFile pq uk ut ci st).2.countP isInitServices = 0 := by
  refine ⟨?_, ?_, ?_⟩
  · rw [main_step_state_of_auth env cfgFile pq uk ut ci st h,
      sp_of_some cfgFile (load_environment_config env cfgFile) st s hb,
      chat_base, selq_base]
    exact hb
  · rw [main_step_state_of_auth env cfgFile pq uk ut ci st h,
      sp_of_some cfgFile (load_environment_config env cfgFile) st s hb,
      chat_pc, selq_pc]
    exact h
  · rw [main_step_trace_of_auth env cfgFile pq uk ut ci st h,
      sp_of_some cfgFile (load_environment_config env cfgFile) st s hb]
    simp [List.countP_append, chat_init_count, selq_init_count]

lemma main_step_none (env : String → Option String) (cfgFile : String → String)
    (pq : String → String) (uk : Option ℤ) (ut : Option ℚ) (ci : Option String)
    (st : SessionState) (h : st.password_correct = some true)
    (hb : st.base_services = none) :
    (main_step env cfgFile pq uk ut ci st).1.base_services =
      some (initialize_services cfgFile (load_environment_config env cfgFile)) ∧
    (main_step env cfgFile pq uk ut ci st).1.password_correct = some true ∧
    (main_step env cfgFile pq uk ut ci st).2.countP isInitServices = 1 := by
  refine ⟨?_, ?_, ?_⟩
  · rw [main_step_state_of_auth env cfgFile pq uk ut ci st h,
      sp_of_none cfgFile (load_environment_config env cfgFile) st hb,
      chat_base, selq_base]
  · rw [main_step_state_of_auth env cfgFile pq uk ut ci st h,
      sp_of_none cfgFile (load_environment_config env cfgFile) st hb,
      chat_pc, selq_pc]
    exact h
  · rw [main_step_trace_of_auth env cfgFile pq uk ut ci st h,
      sp_of_none cfgFile (load_environment_config env cfgFile) st hb]
    simp [List.countP_append, chat_init_count, selq_init_count, isInitServices]

lemma run_turns_some (env : String → Option String) (cfgFile : String → String)
    (pq : String → String) (s : Services) (ts : List TurnInput) :
    ∀ st : SessionState, st.password_correct = some true →
    st.base_services = some s →
    (run_turns env cfgFile pq ts st).1.base_services = some s ∧
    (run_turns env cfgFile pq ts st).1.password_correct = some true ∧
    (run_turns env cfgFile pq ts st).2.countP isInitServices = 0 := by
  induction ts with
  | nil => exact fun st h hb => ⟨hb, h, rfl⟩
  | cons t ts ih =>
    intro st h hb
    obtain ⟨h1, h2, h3⟩ := main_step_some env cfgFile pq t.uTopK t.uThr t.chatInput st s h hb
    obtain ⟨i1, i2, i3⟩ := ih _ h2 h1
    refine ⟨?_, ?_, ?_⟩ <;> simp only [run_turns]
    · exact i1
    · exact i2
    · simp [List.countP_append, h3, i3]

lemma main_step_buildConfig (env : String → Option String)
    (cfgFile : String → String) (pq : String → String) (uk : Option ℤ)
    (ut : Option ℚ) (ci : Option String) (st : SessionState) (c : ProcessorConfig)
    (h : Event.buildConfig c ∈ (main_step env cfgFile pq uk ut ci st).2) :
    c = ⟨⟨(setup_sidebar uk ut).1, (setup_sidebar uk ut).2⟩⟩ := by
  cases hpc : st.password_correct with
  | none => simp [main_step, check_authentication, hpc] at h
  | some b =>
    cases b with
    | false => simp [main_step, check_authentication, hpc] at h
    | true =>
      rw [main_step_trace_of_auth env cfgFile pq uk ut ci st hpc] at h
      rcases List.mem_append.mp h with h | h
      · rcases List.mem_append.mp h with h | h
        · exact (sp_no_buildConfig _ _ _ _ h).elim
        · exact selq_buildConfig _ _ _ _ _ _ h
      · exact chat_buildConfig _ _ _ _ _ _ _ h

lemma slider_bounds {α : Type} [LinearOrder α] (lo hi dflt : α) (u : Option α)
    (h1 : lo ≤ dflt) (h2 : dflt ≤ hi) (h3 : lo ≤ hi) :
    lo ≤ slider lo hi dflt u ∧ slider lo hi dflt u ≤ hi := by
  cases u with
  | none => exact ⟨h1, h2⟩
  | some v => exact ⟨le_max_left _ _, max_le h3 (min_le_left _ _)⟩

lemma truthy_api_false (env : String → Option String) (cfgFile : String → String)
    (hkey : env ("OPENAI_API_KEY") = none ∨ env ("OPENAI_API_KEY") = some ("")) :
    truthyOptStr (load_environment_config env cfgFile).api_key = false := by
  have hak : (load_environment_config env cfgFile).api_key =
      env ("OPENAI_API_KEY") := rfl
  rcases hkey with h | h <;> rw [hak, h] <;> rfl

/-- Witness for C10: a successful check deletes the password; a failed check
keeps it. -/
theorem password_cleared_on_success_witness :
    ((password_entered id ("u") ("p")
        { username := "u", password := some ("p"), password_correct := none,
          chat_history := [], base_services := none,
          selected_question := none }).password_correct = some true ∧
      (password_entered id ("u") ("p")
        { username := "u", password := some ("p"), password_correct := none,
          chat_history := [], base_services := none,
          selected_question := none }).password = none) ∧
    ((password_entered id ("u") ("wrong")
        { username := "u", password := some ("p"), password_correct := none,
          chat_history := [], base_services := none,
          selected_question := none }).password_correct = some false ∧
      (password_entered id ("u") ("wrong")
        { username := "u", password := some ("p"), password_correct := none,
          chat_history := [], base_services := none,
          selected_question := none }).password = some ("p")) :=
  ⟨(password_cleared_on_success id ("u") ("p")
      { username := "u", password := some ("p"), password_correct := none,
        chat_history := [], base_services := none, selected_question := none }
      ("p") rfl).1 (by decide),
    (password_cleared_on_success id ("u") ("wrong")
      { username := "u", password := some ("p"), password_correct := none,
        chat_history := [], base_services := none, selected_question := none }
      ("p") rfl).2 (by decide)⟩

/-- A concrete environment carrying an API key. -/
def sampleEnv : String → Option String := fun _ => some ("key")

/-- A concrete environment with no API key set. -/
def sampleEnvNoKey : String → Option String := fun _ => none

/-- A concrete configuration file. -/
def sampleCfgFile : String → String := fun _ => "model"

/-- A concrete pipeline response function. -/
def samplePq : String → String := fun _ => "ans"

/-- C4: the sidebar sliders keep `top_k` in `[1, 10]` (default 3) and
`similarity_threshold` in `[0, 1]` (default 0.32), and consequently every
`RetrievalConfig` built during a rerun of `main` satisfies `top_k ≥ 1` (hence
`top_k > 0`) and threshold in `[0, 1]`. -/
theorem slider_bounds_every_config (env : String → Option String)
    (cfgFile : String → String) (pq : String → String) (uk : Option ℤ)
    (ut : Option ℚ) (ci : Option String) (st : SessionState) (c : ProcessorConfig) :
    (1 ≤ (setup_sidebar uk ut).1 ∧ (setup_sidebar uk ut).1 ≤ 10 ∧
      0 ≤ (setup_sidebar uk ut).2 ∧ (setup_sidebar uk ut).2 ≤ 1) ∧
    setup_sidebar none none = (3, 32/100) ∧
    (Event.buildConfig c ∈ (main_step env cfgFile pq uk ut ci st).2 →
      1 ≤ c.retrieval.top_k ∧ c.retrieval.top_k ≤ 10 ∧
      0 ≤ c.retrieval.similarity_threshold ∧
      c.retrieval.similarity_threshold ≤ 1) := by
  obtain ⟨a1, a2⟩ := slider_bounds (1:ℤ) 10 3 uk (by norm_num) (by norm_num) (by norm_num)
  obtain ⟨b1, b2⟩ :=
    slider_bounds (0:ℚ) 1 (32/100) ut (by norm_num) (by norm_num) (by norm_num)
  refine ⟨⟨a1, a2, b1, b2⟩, rfl, ?_⟩
  intro hmem
  have hc := main_step_buildConfig env cfgFile pq uk ut ci st c hmem
  subst hc
  exact ⟨a1, a2, b1, b2⟩

/-- Witness for C4: a config built during a concrete rerun with slider
choices 7 and 1 satisfies the bounds. -/
theorem slider_bounds_every_config_witness :
    1 ≤ (ProcessorConfig.mk (RetrievalConfig.mk 7 1)).retrieval.top_k ∧
    (ProcessorConfig.mk (RetrievalConfig.mk 7 1)).retrieval.top_k ≤ 10 ∧
    0 ≤ (ProcessorConfig.mk (RetrievalConfig.mk 7 1)).retrieval.similarity_threshold ∧
    (ProcessorConfig.mk (RetrievalConfig.mk 7 1)).retrieval.similarity_threshold ≤ 1 :=
  (slider_bounds_every_config sampleEnv sampleCfgFile samplePq (some 7)
    (some 1) (some ("q")) sampleState
    (ProcessorConfig.mk (RetrievalConfig.mk 7 1))).2.2 (by decide)

/-- C5: in an authenticated session, `initialize_services` runs at most once
across any sequence of reruns; if services are already cached the very same
record is reused unchanged with no further initialisation; and on the first
rerun with no cached services the rerun installs the record built by
`initialize_services` — whose prompt augmenter is loaded from
`rag_prompt.md`. -/
theorem services_initialized_once (env : String → Option String)
    (cfgFile : String → String) (pq : String → String) (ts : List TurnInput)
    (uk : Option ℤ) (ut : Option ℚ) (ci : Option String) (st : SessionState)
    (hauth : st.password_correct = some true) :
    (run_turns env cfgFile pq ts st).2.countP isInitServices ≤ 1 ∧
    (st.base_services.isSome = true →
      (run_turns env cfgFile pq ts st).1.base_services = st.base_services ∧
      (run_turns env cfgFile pq ts st).2.countP isInitServices = 0) ∧
    (st.base_services = none →
      (main_step env cfgFile pq uk ut ci st).1.base_services =
        some (initialize_services cfgFile (load_environment_config env cfgFile)) ∧
      (initialize_services cfgFile (load_environment_config env cfgFile)).augmenter =
        (⟨"rag_prompt.md"⟩ : PromptAugmenter)) := by
  refine ⟨?_, ?_, ?_⟩
  · cases hb : st.base_services with
    | some s =>
      have := (run_turns_some env cfgFile pq s ts st hauth hb).2.2
      omega
    | none =>
      cases ts with
      | nil => simp [run_turns]
      | cons t ts =>
        obtain ⟨h1, h2, h3⟩ :=
          main_step_none env cfgFile pq t.uTopK t.uThr t.chatInput st hauth hb
        obtain ⟨i1, i2, i3⟩ := run_turns_some env cfgFile pq _ ts _ h2 h1
        simp only [run_turns]
        simp [List.countP_append, h3, i3]
  · intro hs
    obtain ⟨s, hb⟩ := Option.isSome_iff_exists.mp hs
    obtain ⟨a, b, c⟩ := run_turns_some env cfgFile pq s ts st hauth hb
    exact ⟨by rw [a, hb], c⟩
  · intro hb
    exact ⟨(main_step_none env cfgFile pq uk ut ci st hauth hb).1, rfl⟩

/-- Witness for C5 at a concrete one-turn session over cached services. -/
theorem services_initialized_once_witness :
    (run_turns sampleEnv sampleCfgFile samplePq [TurnInput.mk none none (some ("q"))]
      sampleState).2.countP isInitServices ≤ 1 ∧
    (sampleState.base_services.isSome = true →
      (run_turns sampleEnv sampleCfgFile samplePq [TurnInput.mk none none (some ("q"))]
        sampleState).1.base_services = sampleState.base_services ∧
      (run_turns sampleEnv sampleCfgFile samplePq [TurnInput.mk none none (some ("q"))]
        sampleState).2.countP isInitServices = 0) ∧
    (sampleState.base_services = none →
      (main_step sampleEnv sampleCfgFile samplePq none none none
        sampleState).1.base_services =
        some (initialize_services sampleCfgFile
          (load_environment_config sampleEnv sampleCfgFile)) ∧
      (initialize_services sampleCfgFile
        (load_environment_config sampleEnv sampleCfgFile)).augmenter =
        (⟨"rag_prompt.md"⟩ : PromptAugmenter)) :=
  services_initialized_once sampleEnv sampleCfgFile samplePq
    [TurnInput.mk none none (some ("q"))] none none none sampleState rfl

/-- C9: in an authenticated rerun where the `OPENAI_API_KEY` value is absent
or empty, `main` never invokes `process_user_query`: the chat history is
unchanged, any sidebar-selected question has been deleted from session state,
and no error banner is shown. -/
theorem no_query_without_api_key (env : String → Option String)
    (cfgFile : String → String) (pq : String → String) (uk : Option ℤ)
    (ut : Option ℚ) (ci : Option String) (st : SessionState)
    (hauth : st.password_correct = some true)
    (hkey : env ("OPENAI_API_KEY") = none ∨ env ("OPENAI_API_KEY") = some ("")) :
    (main_step env cfgFile pq uk ut ci st).2.countP isProcessQuery = 0 ∧
    (main_step env cfgFile pq uk ut ci st).1.chat_history = st.chat_history ∧
    (main_step env cfgFile pq uk ut ci st).1.selected_question = none ∧
    (main_step env cfgFile pq uk ut ci st).2.countP isErrorShown = 0 := by
  have hk := truthy_api_false env cfgFile hkey
  refine ⟨?_, ?_, ?_, ?_⟩
  · rw [main_step_trace_of_auth env cfgFile pq uk ut ci st hauth,
      selq_no_key_trace _ _ _ _ _ hk, chat_no_key _ _ _ _ _ _ hk]
    simp [List.countP_append, sp_pq_count]
  · rw [main_step_state_of_auth env cfgFile pq uk ut ci st hauth,
      chat_no_key _ _ _ _ _ _ hk]
    rw [show ((selected_question_phase pq (load_environment_config env cfgFile)
        (setup_sidebar uk ut).1 (setup_sidebar uk ut).2
        (services_phase cfgFile (load_environment_config env cfgFile) st).1).1, ([] : List Event)).1
      = (selected_question_phase pq (load_environment_config env cfgFile)
        (setup_sidebar uk ut).1 (setup_sidebar uk ut).2
        (services_phase cfgFile (load_environment_config env cfgFile) st).1).1 from rfl]
    rw [selq_no_key_chat _ _ _ _ _ hk, sp_chat]
  · rw [main_step_state_of_auth env cfgFile pq uk ut ci st hauth,
      chat_no_key _ _ _ _ _ _ hk]
    exact selq_no_key_sq _ _ _ _ _ hk
  · rw [main_step_trace_of_auth env cfgFile pq uk ut ci st hauth,
      selq_no_key_trace _ _ _ _ _ hk, chat_no_key _ _ _ _ _ _ hk]
    simp [List.countP_append, sp_err_count]

/-- Witness for C9: a concrete rerun with no API key, a pending selected
question and a typed chat question. -/
theorem no_query_without_api_key_witness :
    (main_step sampleEnvNoKey sampleCfgFile samplePq none none (some ("q"))
      { sampleState with selected_question := some ("pending") }).2.countP
      isProcessQuery = 0 ∧
    (main_step sampleEnvNoKey sampleCfgFile samplePq none none (some ("q"))
      { sampleState with selected_question := some ("pending") }).1.chat_history =
      ({ sampleState with selected_question := some ("pending") } : SessionState).chat_history ∧
    (main_step sampleEnvNoKey sampleCfgFile samplePq none none (some ("q"))
      { sampleState with selected_question := some ("pending") }).1.selected_question =
      none ∧
    (main_step sampleEnvNoKey sampleCfgFile samplePq none none (some ("q"))
      { sampleState with selected_question := some ("pending") }).2.countP
      isErrorShown = 0 :=
  no_query_without_api_key sampleEnvNoKey sampleCfgFile samplePq none none
    (some ("q")) { sampleState with selected_question := some ("pending") }
    rfl (Or.inl rfl)

end CisRag
